import Mathlib

/-!
Verification of the ledger subsystem of the 90-Days-Backend-Mastery repository.

Two variants of the ledger are embedded:
* `Day06` — `day06-exception-handling-and-logging/bank_with_errors.py`
  (accounts with an `is_active` flag, manager-level `transfer`);
* `Day07` — `day07-file-handling-and-json/persistent_bank.py`
  (JSON snapshot persistence: `to_dict`/`from_dict`, `save_to_file`/`load_from_file`).

Modelling conventions:
* Python `float` amounts are modelled as `ℚ`; every amount in the claims is
  exactly representable, and no operation in the source divides, so the
  arithmetic coincides.
* Python exceptions become `Except` results.  Every mutating method returns
  the `Except` outcome *paired with the post-call object state*, because a
  Python method mutates its receiver in place: on the error paths of the
  source all validation happens before any mutation, so the returned state
  on an error equals the receiver.
* Python `dict` (insertion-ordered, assignment replaces an existing key in
  place) is modelled as an association list with `alookup` / `aset`.
* Wall-clock fields (`datetime.now()` values) are not computable from the
  program state: in `Day06` the `timestamp`/`created_at` fields (never read
  by any claim-relevant code path) are omitted; in `Day07` they are `String`
  fields whose creation-time value is passed in as an explicit `now`
  argument, matching `datetime.now().isoformat()` being a string.
-/

/-- Association-list lookup with Python-`dict` semantics: first (unique)
matching key wins. -/
def alookup {α : Type} : List (String × α) → String → Option α
  | [], _ => none
  | (k, v) :: rest, key => if k = key then some v else alookup rest key

/-- Association-list update with Python-`dict` assignment semantics:
replace in place if the key exists, otherwise append at the end. -/
def aset {α : Type} : List (String × α) → String → α → List (String × α)
  | [], key, value => [(key, value)]
  | (k, v) :: rest, key, value =>
      if k = key then (key, value) :: rest else (k, v) :: aset rest key value

theorem alookup_aset_self {α : Type} (l : List (String × α)) (key : String) (value : α) :
    alookup (aset l key value) key = some value := by
  induction l with
  | nil => simp [aset, alookup]
  | cons p rest ih =>
    obtain ⟨k, v⟩ := p
    by_cases h : k = key
    · simp [aset, alookup, h]
    · simp [aset, alookup, h, ih]

theorem alookup_aset_ne {α : Type} (l : List (String × α)) (key key' : String) (value : α)
    (h : key' ≠ key) : alookup (aset l key value) key' = alookup l key' := by
  have h' : ¬ key = key' := fun hh => h (Eq.symm hh)
  induction l with
  | nil => simp [aset, alookup, h']
  | cons p rest ih =>
    obtain ⟨k, v⟩ := p
    by_cases hk : k = key
    · subst hk
      simp [aset, alookup, h']
    · by_cases hk' : k = key'
      · simp [aset, alookup, hk, hk', h]
      · simp [aset, alookup, hk, hk', ih]

theorem mem_aset {α : Type} (l : List (String × α)) (key : String) (value : α)
    (p : String × α) (hp : p ∈ aset l key value) : p = (key, value) ∨ p ∈ l := by
  induction l with
  | nil => simpa [aset] using hp
  | cons q rest ih =>
    obtain ⟨k, v⟩ := q
    by_cases h : k = key
    · simp only [aset, if_pos h] at hp
      rcases List.mem_cons.mp hp with hp | hp
      · exact Or.inl hp
      · exact Or.inr (List.mem_cons_of_mem _ hp)
    · simp only [aset, if_neg h] at hp
      rcases List.mem_cons.mp hp with hp | hp
      · exact Or.inr (by simp [hp])
      · rcases ih hp with hh | hh
        · exact Or.inl hh
        · exact Or.inr (List.mem_cons_of_mem _ hh)

theorem alookup_mem {α : Type} (l : List (String × α)) (key : String) (v : α)
    (h : alookup l key = some v) : (key, v) ∈ l := by
  induction l with
  | nil => simp [alookup] at h
  | cons p rest ih =>
    obtain ⟨k, w⟩ := p
    by_cases hk : k = key
    · subst hk
      have hv : w = v := by simpa [alookup] using h
      subst hv
      exact List.mem_cons_self _ _
    · simp only [alookup, if_neg hk] at h
      exact List.mem_cons_of_mem _ (ih h)

/-- Zero-pad the decimal representation of `n` to four digits, as Python's
`f"{n:04d}"` does for non-negative `n`. -/
def pad4 (n : Nat) : String :=
  let s := toString n
  String.mk (List.replicate (4 - s.length) '0' ++ s.data)

/-- Zero-pad the decimal representation of `n` to six digits, as Python's
`f"{n:06d}"` does for non-negative `n`. -/
def pad6 (n : Nat) : String :=
  let s := toString n
  String.mk (List.replicate (6 - s.length) '0' ++ s.data)

/-- Transaction ids are minted as `f"{account_id}-TXN-{counter:04d}"`. -/
def mkTxnId (account_id : String) (counter : Nat) : String :=
  account_id ++ "-TXN-" ++ pad4 counter

namespace Day06

/-- Enum `TransactionType` of `bank_with_errors.py`
(`DEPOSIT`, `WITHDRAWAL`, `TRANSFER`). -/
inductive TxnType : Type
  | deposit
  | withdrawal
  | transfer
deriving DecidableEq, Repr

/-- Error taxonomy of `bank_with_errors.py`: `InsufficientFundsError`
(storing `balance`, `amount` and the derived `shortfall = amount - balance`),
`NegativeAmountError` (storing `amount` and the `operation` string),
`AccountNotFoundError` and `AccountInactiveError` (each storing the
account id). -/
inductive BankErr : Type
  | insufficientFunds (balance amount shortfall : ℚ)
  | negativeAmount (amount : ℚ) (operation : String)
  | accountNotFound (account_id : String)
  | accountInactive (account_id : String)
deriving DecidableEq, Repr

/-- Dataclass `Transaction` of `bank_with_errors.py`.  The wall-clock
`timestamp` field is omitted (never read by the modelled operations);
`success` defaults to `true` and is never set to `false` by the source. -/
structure Transaction : Type where
  id : String
  type : TxnType
  amount : ℚ
  balance_after : ℚ
  description : Option String
  success : Bool := true
deriving DecidableEq, Repr

/-- Dataclass `BankAccount` of `bank_with_errors.py`.
`transaction_counter` is the `_transaction_counter` field (default 0);
the wall-clock `created_at` field is omitted. -/
structure BankAccount : Type where
  account_id : String
  owner : String
  balance : ℚ
  is_active : Bool
  transactions : List Transaction
  transaction_counter : Nat
deriving DecidableEq, Repr

/-- `BankAccount.deposit`: validates active, then `amount > 0`, then
increments the balance, mints a transaction id from the incremented
counter and appends the transaction. -/
def BankAccount.deposit (a : BankAccount) (amount : ℚ) (dsc : Option String) :
    Except BankErr Transaction × BankAccount :=
  if a.is_active = false then
    (Except.error (BankErr.accountInactive a.account_id), a)
  else if amount ≤ 0 then
    (Except.error (BankErr.negativeAmount amount "deposit"), a)
  else
    let newBalance := a.balance + amount
    let counter := a.transaction_counter + 1
    let t : Transaction :=
      { id := mkTxnId a.account_id counter
        type := TxnType.deposit
        amount := amount
        balance_after := newBalance
        description := dsc }
    (Except.ok t,
      { a with
          balance := newBalance
          transactions := a.transactions ++ [t]
          transaction_counter := counter })

/-- `BankAccount.withdraw`: validates active, then `amount > 0`, then
sufficient funds (`amount > balance` raises `InsufficientFundsError`),
then decrements the balance and appends the minted transaction. -/
def BankAccount.withdraw (a : BankAccount) (amount : ℚ) (dsc : Option String) :
    Except BankErr Transaction × BankAccount :=
  if a.is_active = false then
    (Except.error (BankErr.accountInactive a.account_id), a)
  else if amount ≤ 0 then
    (Except.error (BankErr.negativeAmount amount "withdrawal"), a)
  else if a.balance < amount then
    (Except.error (BankErr.insufficientFunds a.balance amount (amount - a.balance)), a)
  else
    let newBalance := a.balance - amount
    let counter := a.transaction_counter + 1
    let t : Transaction :=
      { id := mkTxnId a.account_id counter
        type := TxnType.withdrawal
        amount := amount
        balance_after := newBalance
        description := dsc }
    (Except.ok t,
      { a with
          balance := newBalance
          transactions := a.transactions ++ [t]
          transaction_counter := counter })

/-- Dataclass `AccountManager` of `bank_with_errors.py`.
`account_counter` is the `_account_counter` field (default 0). -/
structure AccountManager : Type where
  accounts : List (String × BankAccount)
  account_counter : Nat
deriving DecidableEq, Repr

/-- A freshly constructed `AccountManager()`: empty dict, counter 0. -/
def AccountManager.initial : AccountManager := ⟨[], 0⟩

/-- `AccountManager.create_account`: rejects a negative initial deposit,
mints `ACC-{counter:06d}` from the incremented account counter, builds the
account with the initial balance, and — when the initial deposit is
positive — appends one synthesized opening transaction with the fixed id
suffix `TXN-0000`, bypassing `deposit` and leaving the per-account
transaction counter at 0. -/
def AccountManager.create_account (m : AccountManager) (owner : String)
    (initial_deposit : ℚ) : Except BankErr BankAccount × AccountManager :=
  if initial_deposit < 0 then
    (Except.error (BankErr.negativeAmount initial_deposit "initial deposit"), m)
  else
    let counter := m.account_counter + 1
    let account_id := "ACC-" ++ pad6 counter
    let txns : List Transaction :=
      if 0 < initial_deposit then
        [{ id := account_id ++ "-TXN-0000"
           type := TxnType.deposit
           amount := initial_deposit
           balance_after := initial_deposit
           description := some "Initial deposit" }]
      else []
    let account : BankAccount :=
      { account_id := account_id
        owner := owner
        balance := initial_deposit
        is_active := true
        transactions := txns
        transaction_counter := 0 }
    (Except.ok account, ⟨aset m.accounts account_id account, counter⟩)

/-- `AccountManager.get_account`: dictionary lookup, raising
`AccountNotFoundError` when the key is absent. -/
def AccountManager.get_account (m : AccountManager) (account_id : String) :
    Except BankErr BankAccount :=
  match alookup m.accounts account_id with
  | none => Except.error (BankErr.accountNotFound account_id)
  | some a => Except.ok a

/-- Suffix appended to the transfer-leg descriptions:
`(f": {description}" if description else "")` — Python treats both `None`
and the empty string as falsy. -/
def descSuffix (dsc : Option String) : String :=
  match dsc with
  | none => ""
  | some s => if s.isEmpty then "" else ": " ++ s

/-- `AccountManager.transfer`: resolves both accounts, withdraws from the
source, then deposits to the destination; an exception at any point
propagates, leaving whatever in-place mutations already happened.

In Python the destination object reference is taken before the withdrawal;
here the source account is written back into the map after the withdrawal
and the destination is read from the updated map, which yields the same
object the Python reference aliases (in particular, for a self-transfer the
deposit leg sees the withdrawn state). -/
def AccountManager.transfer (m : AccountManager) (from_id to_id : String)
    (amount : ℚ) (dsc : Option String) :
    Except BankErr (Transaction × Transaction) × AccountManager :=
  match m.get_account from_id with
  | Except.error e => (Except.error e, m)
  | Except.ok from_account =>
    match m.get_account to_id with
    | Except.error e => (Except.error e, m)
    | Except.ok _ =>
      match from_account.withdraw amount
          (some ("Transfer to " ++ to_id ++ descSuffix dsc)) with
      | (Except.error e, _) => (Except.error e, m)
      | (Except.ok w, from') =>
        let m1 : AccountManager := ⟨aset m.accounts from_id from', m.account_counter⟩
        match m1.get_account to_id with
        | Except.error e => (Except.error e, m1)
        | Except.ok to_account =>
          match to_account.deposit amount
              (some ("Transfer from " ++ from_id ++ descSuffix dsc)) with
          | (Except.error e, _) => (Except.error e, m1)
          | (Except.ok d, to') =>
            (Except.ok (w, d), ⟨aset m1.accounts to_id to', m1.account_counter⟩)

/-- One public mutating operation on the ledger, as invoked by callers of
the source: account creation, a deposit or withdrawal on a looked-up
account, or a transfer. -/
inductive Op : Type
  | create (owner : String) (initial_deposit : ℚ)
  | deposit (account_id : String) (amount : ℚ) (dsc : Option String)
  | withdraw (account_id : String) (amount : ℚ) (dsc : Option String)
  | transfer (from_id to_id : String) (amount : ℚ) (dsc : Option String)

/-- State of the ledger after one operation, successful or not.  A caller
performing `deposit`/`withdraw` first obtains the account object via
`get_account` and the mutation happens in place, hence the write-back via
`aset`; on the error paths the written-back state equals the original. -/
def applyOp (m : AccountManager) : Op → AccountManager
  | Op.create owner initial_deposit => (m.create_account owner initial_deposit).2
  | Op.deposit account_id amount dsc =>
      match m.get_account account_id with
      | Except.error _ => m
      | Except.ok a =>
          ⟨aset m.accounts account_id (a.deposit amount dsc).2, m.account_counter⟩
  | Op.withdraw account_id amount dsc =>
      match m.get_account account_id with
      | Except.error _ => m
      | Except.ok a =>
          ⟨aset m.accounts account_id (a.withdraw amount dsc).2, m.account_counter⟩
  | Op.transfer from_id to_id amount dsc => (m.transfer from_id to_id amount dsc).2

/-- Balance recorded by the most recent transaction, or 0 for an empty log. -/
def lastBalanceAfter (a : BankAccount) : ℚ :=
  match a.transactions.getLast? with
  | none => 0
  | some t => t.balance_after

/-- Per-account invariant of the spec: the balance is non-negative and
equals the `balance_after` of the last logged transaction (0 if none). -/
def AccountInv (a : BankAccount) : Prop :=
  0 ≤ a.balance ∧ a.balance = lastBalanceAfter a

instance (a : BankAccount) : Decidable (AccountInv a) := by
  unfold AccountInv
  infer_instance

/-- Ledger-wide invariant: every stored account satisfies `AccountInv`. -/
def ManagerInv (m : AccountManager) : Prop :=
  ∀ p ∈ m.accounts, AccountInv p.2

instance (m : AccountManager) : Decidable (ManagerInv m) := by
  unfold ManagerInv
  exact List.decidableBAll _ _

theorem deposit_ok_eq (a : BankAccount) (amount : ℚ) (dsc : Option String)
    (hact : a.is_active = true) (hpos : 0 < amount) :
    a.deposit amount dsc =
      (Except.ok
        { id := mkTxnId a.account_id (a.transaction_counter + 1)
          type := TxnType.deposit
          amount := amount
          balance_after := a.balance + amount
          description := dsc },
       { a with
          balance := a.balance + amount
          transactions := a.transactions ++
            [{ id := mkTxnId a.account_id (a.transaction_counter + 1)
               type := TxnType.deposit
               amount := amount
               balance_after := a.balance + amount
               description := dsc }]
          transaction_counter := a.transaction_counter + 1 }) := by
  unfold BankAccount.deposit
  rw [hact, if_neg (by simp : ¬ (true = false)), if_neg (not_le.mpr hpos)]

theorem deposit_err_inactive (a : BankAccount) (amount : ℚ) (dsc : Option String)
    (hin : a.is_active = false) :
    a.deposit amount dsc = (Except.error (BankErr.accountInactive a.account_id), a) := by
  unfold BankAccount.deposit
  rw [hin, if_pos rfl]

theorem deposit_err_nonpos (a : BankAccount) (amount : ℚ) (dsc : Option String)
    (hact : a.is_active = true) (hle : amount ≤ 0) :
    a.deposit amount dsc = (Except.error (BankErr.negativeAmount amount "deposit"), a) := by
  unfold BankAccount.deposit
  rw [hact, if_neg (by simp : ¬ (true = false)), if_pos hle]

theorem withdraw_ok_eq (a : BankAccount) (amount : ℚ) (dsc : Option String)
    (hact : a.is_active = true) (hpos : 0 < amount) (hle : amount ≤ a.balance) :
    a.withdraw amount dsc =
      (Except.ok
        { id := mkTxnId a.account_id (a.transaction_counter + 1)
          type := TxnType.withdrawal
          amount := amount
          balance_after := a.balance - amount
          description := dsc },
       { a with
          balance := a.balance - amount
          transactions := a.transactions ++
            [{ id := mkTxnId a.account_id (a.transaction_counter + 1)
               type := TxnType.withdrawal
               amount := amount
               balance_after := a.balance - amount
               description := dsc }]
          transaction_counter := a.transaction_counter + 1 }) := by
  unfold BankAccount.withdraw
  rw [hact, if_neg (by simp : ¬ (true = false)), if_neg (not_le.mpr hpos),
    if_neg (not_lt.mpr hle)]

theorem withdraw_err_inactive (a : BankAccount) (amount : ℚ) (dsc : Option String)
    (hin : a.is_active = false) :
    a.withdraw amount dsc = (Except.error (BankErr.accountInactive a.account_id), a) := by
  unfold BankAccount.withdraw
  rw [hin, if_pos rfl]

theorem withdraw_err_nonpos (a : BankAccount) (amount : ℚ) (dsc : Option String)
    (hact : a.is_active = true) (hle : amount ≤ 0) :
    a.withdraw amount dsc =
      (Except.error (BankErr.negativeAmount amount "withdrawal"), a) := by
  unfold BankAccount.withdraw
  rw [hact, if_neg (by simp : ¬ (true = false)), if_pos hle]

theorem withdraw_err_insufficient (a : BankAccount) (amount : ℚ) (dsc : Option String)
    (hact : a.is_active = true) (hpos : 0 < amount) (hlt : a.balance < amount) :
    a.withdraw amount dsc =
      (Except.error (BankErr.insufficientFunds a.balance amount (amount - a.balance)), a) := by
  unfold BankAccount.withdraw
  rw [hact, if_neg (by simp : ¬ (true = false)), if_neg (not_le.mpr hpos), if_pos hlt]

theorem is_active_true_of_not_false (a : BankAccount) (h : ¬ a.is_active = false) :
    a.is_active = true := by
  revert h
  cases a.is_active <;> simp

theorem deposit_snd_inv (a : BankAccount) (amount : ℚ) (dsc : Option String)
    (h : AccountInv a) : AccountInv (a.deposit amount dsc).2 := by
  by_cases h1 : a.is_active = false
  · rw [deposit_err_inactive a amount dsc h1]
    exact h
  · have hact := is_active_true_of_not_false a h1
    by_cases h2 : amount ≤ 0
    · rw [deposit_err_nonpos a amount dsc hact h2]
      exact h
    · have hpos : 0 < amount := not_le.mp h2
      rw [deposit_ok_eq a amount dsc hact hpos]
      constructor
      · have h0 := h.1
        have : (0 : ℚ) ≤ a.balance + amount := by linarith
        simpa using this
      · show a.balance + amount = lastBalanceAfter _
        unfold lastBalanceAfter
        simp

theorem withdraw_snd_inv (a : BankAccount) (amount : ℚ) (dsc : Option String)
    (h : AccountInv a) : AccountInv (a.withdraw amount dsc).2 := by
  by_cases h1 : a.is_active = false
  · rw [withdraw_err_inactive a amount dsc h1]
    exact h
  · have hact := is_active_true_of_not_false a h1
    by_cases h2 : amount ≤ 0
    · rw [withdraw_err_nonpos a amount dsc hact h2]
      exact h
    · have hpos : 0 < amount := not_le.mp h2
      by_cases h3 : a.balance < amount
      · rw [withdraw_err_insufficient a amount dsc hact hpos h3]
        exact h
      · have hle : amount ≤ a.balance := not_lt.mp h3
        rw [withdraw_ok_eq a amount dsc hact hpos hle]
        constructor
        · have : (0 : ℚ) ≤ a.balance - amount := by linarith
          simpa using this
        · show a.balance - amount = lastBalanceAfter _
          unfold lastBalanceAfter
          simp

theorem get_account_ok_iff (m : AccountManager) (k : String) (a : BankAccount) :
    m.get_account k = Except.ok a ↔ alookup m.accounts k = some a := by
  unfold AccountManager.get_account
  cases h : alookup m.accounts k <;> simp

theorem managerInv_aset (m : AccountManager) (k : String) (v : BankAccount)
    (c : Nat) (h : ManagerInv m) (hv : AccountInv v) :
    ManagerInv ⟨aset m.accounts k v, c⟩ := by
  intro p hp
  rcases mem_aset m.accounts k v p hp with hp | hp
  · subst hp
    exact hv
  · exact h p hp

theorem accountInv_of_get (m : AccountManager) (k : String) (a : BankAccount)
    (h : ManagerInv m) (hk : m.get_account k = Except.ok a) : AccountInv a :=
  h (k, a) (alookup_mem m.accounts k a ((get_account_ok_iff m k a).mp hk))

theorem create_account_ok_eq (m : AccountManager) (owner : String) (q : ℚ)
    (h : ¬ q < 0) :
    m.create_account owner q =
      (Except.ok
        { account_id := "ACC-" ++ pad6 (m.account_counter + 1)
          owner := owner
          balance := q
          is_active := true
          transactions :=
            if 0 < q then
              [{ id := ("ACC-" ++ pad6 (m.account_counter + 1)) ++ "-TXN-0000"
                 type := TxnType.deposit
                 amount := q
                 balance_after := q
                 description := some "Initial deposit" }]
            else []
          transaction_counter := 0 },
       ⟨aset m.accounts ("ACC-" ++ pad6 (m.account_counter + 1))
          { account_id := "ACC-" ++ pad6 (m.account_counter + 1)
            owner := owner
            balance := q
            is_active := true
            transactions :=
              if 0 < q then
                [{ id := ("ACC-" ++ pad6 (m.account_counter + 1)) ++ "-TXN-0000"
                   type := TxnType.deposit
                   amount := q
                   balance_after := q
                   description := some "Initial deposit" }]
              else []
            transaction_counter := 0 },
        m.account_counter + 1⟩) := by
  unfold AccountManager.create_account
  rw [if_neg h]

theorem create_account_snd_inv (m : AccountManager) (owner : String) (q : ℚ)
    (h : ManagerInv m) : ManagerInv (m.create_account owner q).2 := by
  by_cases h1 : q < 0
  · unfold AccountManager.create_account
    rw [if_pos h1]
    exact h
  · rw [create_account_ok_eq m owner q h1]
    refine managerInv_aset m _ _ _ h ?_
    constructor
    · exact not_lt.mp h1
    · show q = lastBalanceAfter _
      unfold lastBalanceAfter
      by_cases h2 : 0 < q
      · simp [h2]
      · have : q = 0 := le_antisymm (not_lt.mp h2) (not_lt.mp h1)
        simp [h2, this]

/-- Description passed to the withdrawal leg of a transfer. -/
def wDesc (to_id : String) (dsc : Option String) : Option String :=
  some ("Transfer to " ++ to_id ++ descSuffix dsc)

/-- Description passed to the deposit leg of a transfer. -/
def dDesc (from_id : String) (dsc : Option String) : Option String :=
  some ("Transfer from " ++ from_id ++ descSuffix dsc)

theorem transfer_eq_from_missing (m : AccountManager) (from_id to_id : String)
    (amount : ℚ) (dsc : Option String) (e : BankErr)
    (hf : m.get_account from_id = Except.error e) :
    m.transfer from_id to_id amount dsc = (Except.error e, m) := by
  unfold AccountManager.transfer
  rw [hf]

theorem transfer_eq_to_missing (m : AccountManager) (from_id to_id : String)
    (amount : ℚ) (dsc : Option String) (A : BankAccount) (e : BankErr)
    (hf : m.get_account from_id = Except.ok A)
    (ht : m.get_account to_id = Except.error e) :
    m.transfer from_id to_id amount dsc = (Except.error e, m) := by
  unfold AccountManager.transfer
  rw [hf, ht]

theorem transfer_eq_withdraw_err (m : AccountManager) (from_id to_id : String)
    (amount : ℚ) (dsc : Option String) (A B A₂ : BankAccount) (e : BankErr)
    (hf : m.get_account from_id = Except.ok A)
    (ht : m.get_account to_id = Except.ok B)
    (hw : A.withdraw amount (wDesc to_id dsc) = (Except.error e, A₂)) :
    m.transfer from_id to_id amount dsc = (Except.error e, m) := by
  unfold AccountManager.transfer
  rw [hf, ht]
  dsimp only
  unfold wDesc at hw
  rw [hw]

theorem transfer_eq_relookup_err (m : AccountManager) (from_id to_id : String)
    (amount : ℚ) (dsc : Option String) (A B A' : BankAccount) (w : Transaction)
    (e : BankErr)
    (hf : m.get_account from_id = Except.ok A)
    (ht : m.get_account to_id = Except.ok B)
    (hw : A.withdraw amount (wDesc to_id dsc) = (Except.ok w, A'))
    (hd : AccountManager.get_account
        ⟨aset m.accounts from_id A', m.account_counter⟩ to_id = Except.error e) :
    m.transfer from_id to_id amount dsc =
      (Except.error e, ⟨aset m.accounts from_id A', m.account_counter⟩) := by
  unfold AccountManager.transfer
  rw [hf, ht]
  dsimp only
  unfold wDesc at hw
  rw [hw]
  dsimp only
  rw [hd]

theorem transfer_eq_deposit_err (m : AccountManager) (from_id to_id : String)
    (amount : ℚ) (dsc : Option String) (A B A' C C₂ : BankAccount)
    (w : Transaction) (e : BankErr)
    (hf : m.get_account from_id = Except.ok A)
    (ht : m.get_account to_id = Except.ok B)
    (hw : A.withdraw amount (wDesc to_id dsc) = (Except.ok w, A'))
    (hd : AccountManager.get_account
        ⟨aset m.accounts from_id A', m.account_counter⟩ to_id = Except.ok C)
    (hde : C.deposit amount (dDesc from_id dsc) = (Except.error e, C₂)) :
    m.transfer from_id to_id amount dsc =
      (Except.error e, ⟨aset m.accounts from_id A', m.account_counter⟩) := by
  unfold AccountManager.transfer
  rw [hf, ht]
  dsimp only
  unfold wDesc at hw
  rw [hw]
  dsimp only
  rw [hd]
  dsimp only
  unfold dDesc at hde
  rw [hde]

theorem transfer_eq_ok (m : AccountManager) (from_id to_id : String)
    (amount : ℚ) (dsc : Option String) (A B A' C C' : BankAccount)
    (w d : Transaction)
    (hf : m.get_account from_id = Except.ok A)
    (ht : m.get_account to_id = Except.ok B)
    (hw : A.withdraw amount (wDesc to_id dsc) = (Except.ok w, A'))
    (hd : AccountManager.get_account
        ⟨aset m.accounts from_id A', m.account_counter⟩ to_id = Except.ok C)
    (hde : C.deposit amount (dDesc from_id dsc) = (Except.ok d, C')) :
    m.transfer from_id to_id amount dsc =
      (Except.ok (w, d),
       ⟨aset (aset m.accounts from_id A') to_id C', m.account_counter⟩) := by
  unfold AccountManager.transfer
  rw [hf, ht]
  dsimp only
  unfold wDesc at hw
  rw [hw]
  dsimp only
  rw [hd]
  dsimp only
  unfold dDesc at hde
  rw [hde]

theorem transfer_snd_inv (m : AccountManager) (from_id to_id : String) (amount : ℚ)
    (dsc : Option String) (h : ManagerInv m) :
    ManagerInv (m.transfer from_id to_id amount dsc).2 := by
  cases hf : m.get_account from_id with
  | error e =>
    rw [transfer_eq_from_missing m from_id to_id amount dsc e hf]
    exact h
  | ok A =>
    cases ht : m.get_account to_id with
    | error e =>
      rw [transfer_eq_to_missing m from_id to_id amount dsc A e hf ht]
      exact h
    | ok B =>
      rcases hw : A.withdraw amount (wDesc to_id dsc) with ⟨r, A'⟩
      have hA' : AccountInv A' := by
        have hh := withdraw_snd_inv A amount (wDesc to_id dsc)
          (accountInv_of_get m from_id A h hf)
        rw [hw] at hh
        exact hh
      cases r with
      | error e =>
        rw [transfer_eq_withdraw_err m from_id to_id amount dsc A B A' e hf ht hw]
        exact h
      | ok w =>
        have hm1 : ManagerInv ⟨aset m.accounts from_id A', m.account_counter⟩ :=
          managerInv_aset m from_id A' m.account_counter h hA'
        cases hd : AccountManager.get_account
            ⟨aset m.accounts from_id A', m.account_counter⟩ to_id with
        | error e =>
          rw [transfer_eq_relookup_err m from_id to_id amount dsc A B A' w e hf ht hw hd]
          exact hm1
        | ok C =>
          rcases hde : C.deposit amount (dDesc from_id dsc) with ⟨r2, C'⟩
          have hC' : AccountInv C' := by
            have hh := deposit_snd_inv C amount (dDesc from_id dsc)
              (accountInv_of_get _ to_id C hm1 hd)
            rw [hde] at hh
            exact hh
          cases r2 with
          | error e =>
            rw [transfer_eq_deposit_err m from_id to_id amount dsc A B A' C C' w e
              hf ht hw hd hde]
            exact hm1
          | ok d =>
            rw [transfer_eq_ok m from_id to_id amount dsc A B A' C C' w d
              hf ht hw hd hde]
            exact managerInv_aset ⟨aset m.accounts from_id A', m.account_counter⟩
              to_id C' m.account_counter hm1 hC'

theorem applyOp_inv (m : AccountManager) (op : Op) (h : ManagerInv m) :
    ManagerInv (applyOp m op) := by
  cases op with
  | create owner q => exact create_account_snd_inv m owner q h
  | deposit k amount dsc =>
    show ManagerInv
      (match m.get_account k with
        | Except.error _ => m
        | Except.ok a =>
            ⟨aset m.accounts k (a.deposit amount dsc).2, m.account_counter⟩)
    cases hk : m.get_account k with
    | error e => exact h
    | ok a =>
      exact managerInv_aset m k (a.deposit amount dsc).2 m.account_counter h
        (deposit_snd_inv a amount dsc (accountInv_of_get m k a h hk))
  | withdraw k amount dsc =>
    show ManagerInv
      (match m.get_account k with
        | Except.error _ => m
        | Except.ok a =>
            ⟨aset m.accounts k (a.withdraw amount dsc).2, m.account_counter⟩)
    cases hk : m.get_account k with
    | error e => exact h
    | ok a =>
      exact managerInv_aset m k (a.withdraw amount dsc).2 m.account_counter h
        (withdraw_snd_inv a amount dsc (accountInv_of_get m k a h hk))
  | transfer f t amount dsc => exact transfer_snd_inv m f t amount dsc h

theorem get_account_aset_self (m : AccountManager) (k : String) (v : BankAccount)
    (c : Nat) :
    AccountManager.get_account ⟨aset m.accounts k v, c⟩ k = Except.ok v := by
  rw [get_account_ok_iff]
  exact alookup_aset_self m.accounts k v

theorem get_account_aset_other (m : AccountManager) (k k' : String) (v : BankAccount)
    (c : Nat) (B : BankAccount) (h : k' ≠ k) (hB : m.get_account k' = Except.ok B) :
    AccountManager.get_account ⟨aset m.accounts k v, c⟩ k' = Except.ok B := by
  rw [get_account_ok_iff]
  rw [show (⟨aset m.accounts k v, c⟩ : AccountManager).accounts =
      aset m.accounts k v from rfl]
  rw [alookup_aset_ne m.accounts k k' v h]
  exact (get_account_ok_iff m k' B).mp hB

theorem deposit_counter_le (a : BankAccount) (amount : ℚ) (dsc : Option String) :
    a.transaction_counter ≤ ((a.deposit amount dsc).2).transaction_counter := by
  by_cases h1 : a.is_active = false
  · rw [deposit_err_inactive a amount dsc h1]
  · have hact := is_active_true_of_not_false a h1
    by_cases h2 : amount ≤ 0
    · rw [deposit_err_nonpos a amount dsc hact h2]
    · rw [deposit_ok_eq a amount dsc hact (not_le.mp h2)]
      exact Nat.le_succ _

theorem withdraw_counter_le (a : BankAccount) (amount : ℚ) (dsc : Option String) :
    a.transaction_counter ≤ ((a.withdraw amount dsc).2).transaction_counter := by
  by_cases h1 : a.is_active = false
  · rw [withdraw_err_inactive a amount dsc h1]
  · have hact := is_active_true_of_not_false a h1
    by_cases h2 : amount ≤ 0
    · rw [withdraw_err_nonpos a amount dsc hact h2]
    · by_cases h3 : a.balance < amount
      · rw [withdraw_err_insufficient a amount dsc hact (not_le.mp h2) h3]
      · rw [withdraw_ok_eq a amount dsc hact (not_le.mp h2) (not_lt.mp h3)]
        exact Nat.le_succ _

theorem aset_counter_step (l : List (String × BankAccount)) (key : String)
    (C C' : BankAccount) (k : String) (a : BankAccount)
    (hC : alookup l key = some C)
    (hCC : C.transaction_counter ≤ C'.transaction_counter)
    (hk : alookup l k = some a) :
    ∃ a', alookup (aset l key C') k = some a' ∧
      a.transaction_counter ≤ a'.transaction_counter := by
  by_cases h : k = key
  · subst h
    rw [hk] at hC
    have hCa : a = C := by injection hC
    subst hCa
    exact ⟨C', alookup_aset_self l k C', hCC⟩
  · exact ⟨a, by rw [alookup_aset_ne l key k C' h]; exact hk, le_refl _⟩

/-- C1: for every account, after every ledger or account operation
(`create_account`, `deposit`, `withdraw`, `transfer`), the account's balance
equals the `balance_after` of the last transaction in its log (or 0 if the
log is empty) and is non-negative: the invariant `ManagerInv` holds of the
initial ledger and is preserved by every operation, successful or failed. -/
theorem C1_balance_log_invariant :
    ManagerInv AccountManager.initial ∧
    ∀ (m : AccountManager) (op : Op), ManagerInv m → ManagerInv (applyOp m op) :=
  ⟨fun p hp => absurd hp (by simp [AccountManager.initial]),
   fun m op h => applyOp_inv m op h⟩

/-- Ledger used to instantiate the preservation theorems: one account
holding 1000 created through `create_account`. -/
def demoManager : AccountManager :=
  (AccountManager.initial.create_account "Alice" 1000).2

theorem C1_witness :
    ManagerInv (applyOp demoManager (Op.deposit "ACC-000001" 250 none)) :=
  C1_balance_log_invariant.2 demoManager (Op.deposit "ACC-000001" 250 none)
    (by decide)

/-- C2: withdrawing `amount > balance` from an active account (whose balance
is non-negative, as every reachable balance is by C1) fails with
`InsufficientFundsError` carrying the balance, the amount and the shortfall
`amount - balance`, and leaves the account — balance, transaction log and
transaction counter — unchanged. -/
theorem C2_withdraw_insufficient (a : BankAccount) (amount : ℚ) (dsc : Option String)
    (hact : a.is_active = true) (hbal : 0 ≤ a.balance) (hlt : a.balance < amount) :
    a.withdraw amount dsc =
      (Except.error (BankErr.insufficientFunds a.balance amount (amount - a.balance)),
       a) :=
  withdraw_err_insufficient a amount dsc hact (lt_of_le_of_lt hbal hlt) hlt

/-- Account used to instantiate the single-account error theorems. -/
def charlieAcc : BankAccount :=
  { account_id := "ACC-000001"
    owner := "Charlie"
    balance := 100
    is_active := true
    transactions := []
    transaction_counter := 0 }

theorem C2_witness :
    charlieAcc.withdraw 500 none =
      (Except.error (BankErr.insufficientFunds 100 500 400), charlieAcc) := by
  have h := C2_withdraw_insufficient charlieAcc 500 none rfl (by decide) (by decide)
  exact h.trans (by norm_num [charlieAcc])

/-- C4: with active accounts A (balance 1000) and B (balance 500) in the
ledger, `transfer(A, B, 200)` succeeds, returns the (withdrawal, deposit)
pair in that order with `balance_after` 800 and 700 respectively, and leaves
A at 800 and B at 700. -/
theorem C4_transfer_scenario (m : AccountManager) (aId bId : String)
    (A B : BankAccount) (dsc : Option String)
    (hA : m.get_account aId = Except.ok A) (hB : m.get_account bId = Except.ok B)
    (hAact : A.is_active = true) (hBact : B.is_active = true)
    (hAbal : A.balance = 1000) (hBbal : B.balance = 500) :
    ∃ w d A' B',
      (m.transfer aId bId 200 dsc).1 = Except.ok (w, d) ∧
      w.type = TxnType.withdrawal ∧ w.balance_after = 800 ∧
      d.type = TxnType.deposit ∧ d.balance_after = 700 ∧
      (m.transfer aId bId 200 dsc).2.get_account aId = Except.ok A' ∧
      A'.balance = 800 ∧
      (m.transfer aId bId 200 dsc).2.get_account bId = Except.ok B' ∧
      B'.balance = 700 := by
  have hne : aId ≠ bId := by
    intro hEq
    rw [hEq] at hA
    have hAB : A = B := by
      have h := hA.symm.trans hB
      injection h
    rw [hAB, hBbal] at hAbal
    norm_num at hAbal
  have h200 : (0 : ℚ) < 200 := by norm_num
  have hle200 : (200 : ℚ) ≤ A.balance := by
    rw [hAbal]
    norm_num
  have hweq := withdraw_ok_eq A 200 (wDesc bId dsc) hAact h200 hle200
  have hdeq := deposit_ok_eq B 200 (dDesc aId dsc) hBact h200
  have htr := transfer_eq_ok m aId bId 200 dsc A B _ B _ _ _ hA hB hweq
    (get_account_aset_other m aId bId _ m.account_counter B (Ne.symm hne) hB) hdeq
  rw [htr]
  refine ⟨_, _, _, _, rfl, rfl, ?_, rfl, ?_,
    get_account_aset_other ⟨aset m.accounts aId _, m.account_counter⟩ bId aId _
      m.account_counter _ hne
      (get_account_aset_self m aId _ m.account_counter), ?_,
    get_account_aset_self ⟨aset m.accounts aId _, m.account_counter⟩ bId _
      m.account_counter, ?_⟩
  · show A.balance - 200 = 800
    rw [hAbal]
    norm_num
  · show B.balance + 200 = 700
    rw [hBbal]
    norm_num
  · show A.balance - 200 = 800
    rw [hAbal]
    norm_num
  · show B.balance + 200 = 700
    rw [hBbal]
    norm_num

/-- Ledger with Alice (1000) and Bob (500) created through the public
`create_account` operation, for instantiating the transfer theorems. -/
def aliceBobManager : AccountManager :=
  ((AccountManager.initial.create_account "Alice" 1000).2.create_account
    "Bob" 500).2

theorem C4_witness :
    ∃ w d A' B',
      (aliceBobManager.transfer "ACC-000001" "ACC-000002" 200 none).1 =
        Except.ok (w, d) ∧
      w.type = TxnType.withdrawal ∧ w.balance_after = 800 ∧
      d.type = TxnType.deposit ∧ d.balance_after = 700 ∧
      (aliceBobManager.transfer "ACC-000001" "ACC-000002" 200 none).2.get_account
        "ACC-000001" = Except.ok A' ∧
      A'.balance = 800 ∧
      (aliceBobManager.transfer "ACC-000001" "ACC-000002" 200 none).2.get_account
        "ACC-000002" = Except.ok B' ∧
      B'.balance = 700 :=
  C4_transfer_scenario aliceBobManager "ACC-000001" "ACC-000002" _ _ none
    rfl rfl rfl rfl rfl rfl

/-- C5: if the source of a transfer is active and sufficiently funded but
the destination is inactive, the withdrawal leg succeeds and the deposit leg
fails with `AccountInactiveError`: the transfer returns that error, the
source is left debited by `amount` with one withdrawal transaction appended
(and its counter incremented), and the destination is completely unchanged —
transfer is not atomic across the two accounts. -/
theorem C5_transfer_partial_failure (m : AccountManager) (fId tId : String)
    (A B : BankAccount) (amount : ℚ) (dsc : Option String)
    (hA : m.get_account fId = Except.ok A) (hB : m.get_account tId = Except.ok B)
    (hAact : A.is_active = true) (hBin : B.is_active = false)
    (hpos : 0 < amount) (hle : amount ≤ A.balance) :
    (m.transfer fId tId amount dsc).1 =
      Except.error (BankErr.accountInactive B.account_id) ∧
    (∃ w, w.type = TxnType.withdrawal ∧ w.amount = amount ∧
      w.balance_after = A.balance - amount ∧
      (m.transfer fId tId amount dsc).2.get_account fId =
        Except.ok
          { A with
              balance := A.balance - amount
              transactions := A.transactions ++ [w]
              transaction_counter := A.transaction_counter + 1 }) ∧
    (m.transfer fId tId amount dsc).2.get_account tId = Except.ok B := by
  have hne : fId ≠ tId := by
    intro hEq
    rw [hEq] at hA
    have hAB : A = B := by
      have h := hA.symm.trans hB
      injection h
    rw [hAB, hBin] at hAact
    cases hAact
  have hweq := withdraw_ok_eq A amount (wDesc tId dsc) hAact hpos hle
  have hdeq := deposit_err_inactive B amount (dDesc fId dsc) hBin
  have htr := transfer_eq_deposit_err m fId tId amount dsc A B _ B B _
    (BankErr.accountInactive B.account_id) hA hB hweq
    (get_account_aset_other m fId tId _ m.account_counter B (Ne.symm hne) hB) hdeq
  rw [htr]
  exact ⟨rfl,
    ⟨_, rfl, rfl, rfl, get_account_aset_self m fId _ m.account_counter⟩,
    get_account_aset_other m fId tId _ m.account_counter B (Ne.symm hne) hB⟩

/-- Ledger with an active funded source and an inactive destination. -/
def inactiveDestManager : AccountManager :=
  ⟨[("ACC-000001",
     { account_id := "ACC-000001"
       owner := "Alice"
       balance := 1000
       is_active := true
       transactions := []
       transaction_counter := 0 }),
    ("ACC-000002",
     { account_id := "ACC-000002"
       owner := "Bob"
       balance := 500
       is_active := false
       transactions := []
       transaction_counter := 0 })], 2⟩

theorem C5_witness :
    (inactiveDestManager.transfer "ACC-000001" "ACC-000002" 200 none).1 =
      Except.error (BankErr.accountInactive "ACC-000002") ∧
    (∃ w, w.type = TxnType.withdrawal ∧ w.amount = 200 ∧
      w.balance_after = (1000 : ℚ) - 200 ∧
      (inactiveDestManager.transfer "ACC-000001" "ACC-000002" 200 none).2.get_account
        "ACC-000001" =
        Except.ok
          { account_id := "ACC-000001"
            owner := "Alice"
            balance := (1000 : ℚ) - 200
            is_active := true
            transactions := [] ++ [w]
            transaction_counter := 0 + 1 }) ∧
    (inactiveDestManager.transfer "ACC-000001" "ACC-000002" 200 none).2.get_account
      "ACC-000002" =
      Except.ok
        { account_id := "ACC-000002"
          owner := "Bob"
          balance := 500
          is_active := false
          transactions := []
          transaction_counter := 0 } :=
  C5_transfer_partial_failure inactiveDestManager "ACC-000001" "ACC-000002" _ _
    200 none rfl rfl rfl rfl (by decide) (by decide)

/-- C6: a transfer between two existing active accounts whose amount exceeds
the source balance fails with `InsufficientFundsError` (carrying balance,
amount and shortfall `amount - balance`) and leaves the whole ledger — both
accounts, balances and logs — unchanged. -/
theorem C6_transfer_insufficient (m : AccountManager) (aId bId : String)
    (A B : BankAccount) (amount : ℚ) (dsc : Option String)
    (hA : m.get_account aId = Except.ok A) (hB : m.get_account bId = Except.ok B)
    (hAact : A.is_active = true) (hBact : B.is_active = true)
    (hbal : 0 ≤ A.balance) (hlt : A.balance < amount) :
    m.transfer aId bId amount dsc =
      (Except.error (BankErr.insufficientFunds A.balance amount (amount - A.balance)),
       m) :=
  transfer_eq_withdraw_err m aId bId amount dsc A B A _ hA hB
    (withdraw_err_insufficient A amount (wDesc bId dsc) hAact
      (lt_of_le_of_lt hbal hlt) hlt)

/-- Ledger with active accounts holding 800 and 700. -/
def insufficientManager : AccountManager :=
  ⟨[("ACC-000001",
     { account_id := "ACC-000001"
       owner := "Alice"
       balance := 800
       is_active := true
       transactions := []
       transaction_counter := 0 }),
    ("ACC-000002",
     { account_id := "ACC-000002"
       owner := "Bob"
       balance := 700
       is_active := true
       transactions := []
       transaction_counter := 0 })], 2⟩

theorem C6_witness :
    insufficientManager.transfer "ACC-000001" "ACC-000002" 5000 none =
      (Except.error (BankErr.insufficientFunds 800 5000 4200),
       insufficientManager) :=
  (C6_transfer_insufficient insufficientManager "ACC-000001" "ACC-000002" _ _
    5000 none rfl rfl rfl rfl (by decide) (by decide)).trans
    (by norm_num [insufficientManager])

/-- C10: a self-transfer on an existing active account with
`0 < amount ≤ balance` succeeds: the returned withdrawal has
`balance_after = balance - amount`, the returned deposit has
`balance_after = balance`, exactly those two transactions are appended to
the log (counter advanced by 2), and the final balance equals the initial
balance. -/
theorem C10_self_transfer (m : AccountManager) (k : String) (A : BankAccount)
    (amount : ℚ) (dsc : Option String)
    (hA : m.get_account k = Except.ok A) (hact : A.is_active = true)
    (hpos : 0 < amount) (hle : amount ≤ A.balance) :
    ∃ w d,
      (m.transfer k k amount dsc).1 = Except.ok (w, d) ∧
      w.type = TxnType.withdrawal ∧ w.balance_after = A.balance - amount ∧
      d.type = TxnType.deposit ∧ d.balance_after = A.balance ∧
      (m.transfer k k amount dsc).2.get_account k =
        Except.ok
          { A with
              transactions := A.transactions ++ [w, d]
              transaction_counter := A.transaction_counter + 2 } := by
  have hweq := withdraw_ok_eq A amount (wDesc k dsc) hact hpos hle
  have hdeq := deposit_ok_eq
    { A with
        balance := A.balance - amount
        transactions := A.transactions ++
          [{ id := mkTxnId A.account_id (A.transaction_counter + 1)
             type := TxnType.withdrawal
             amount := amount
             balance_after := A.balance - amount
             description := wDesc k dsc }]
        transaction_counter := A.transaction_counter + 1 }
    amount (dDesc k dsc) hact hpos
  have htr := transfer_eq_ok m k k amount dsc A A _ _ _ _ _ hA hA hweq
    (get_account_aset_self m k _ m.account_counter) hdeq
  rw [htr]
  refine ⟨_, _, rfl, rfl, ?_, rfl, ?_, ?_⟩
  · show A.balance - amount = A.balance - amount
    rfl
  · show A.balance - amount + amount = A.balance
    ring
  · refine (get_account_aset_self ⟨aset m.accounts k _, m.account_counter⟩ k _
      m.account_counter).trans ?_
    refine congrArg Except.ok ?_
    have hb : A.balance - amount + amount = A.balance := by ring
    rw [hb, List.append_assoc]
    exact rfl

/-- Ledger with one active account holding 100. -/
def selfTransferManager : AccountManager :=
  ⟨[("ACC-000001",
     { account_id := "ACC-000001"
       owner := "Carol"
       balance := 100
       is_active := true
       transactions := []
       transaction_counter := 0 })], 1⟩

theorem C10_witness :
    ∃ w d,
      (selfTransferManager.transfer "ACC-000001" "ACC-000001" 30 none).1 =
        Except.ok (w, d) ∧
      w.type = TxnType.withdrawal ∧ w.balance_after = (100 : ℚ) - 30 ∧
      d.type = TxnType.deposit ∧ d.balance_after = (100 : ℚ) ∧
      (selfTransferManager.transfer "ACC-000001" "ACC-000001" 30 none).2.get_account
        "ACC-000001" =
        Except.ok
          { account_id := "ACC-000001"
            owner := "Carol"
            balance := 100
            is_active := true
            transactions := [] ++ [w, d]
            transaction_counter := 0 + 2 } :=
  C10_self_transfer selfTransferManager "ACC-000001" _ 30 none rfl rfl
    (by decide) (by decide)

/-- Result of creating an account with a positive initial deposit from a
fresh ledger. -/
def c8Created : Except BankErr BankAccount × AccountManager :=
  AccountManager.initial.create_account "Alice" 100

/-- C8 counterexample: `create_account` with a positive initial deposit
synthesizes the opening `TXN-0000` transaction directly, without touching
`_transaction_counter`: the created account has one transaction ever created
but its counter is 0, so the counter does not equal the number of
transactions ever created. -/
theorem C8_counterexample :
    c8Created.1.map (fun a => (a.transaction_counter, a.transactions.length)) =
      Except.ok ((0 : Nat), (1 : Nat)) ∧ (0 : Nat) ≠ 1 :=
  ⟨rfl, by decide⟩

/-- C8 (amended): the transaction counter is non-decreasing and counts
exactly the transactions minted through `deposit`/`withdraw`: a successful
deposit or withdrawal increments it by one while appending exactly one
transaction, a failed one leaves the account unchanged, every transfer
leaves every stored account's counter no smaller, and `create_account`
synthesizes the opening initial-deposit transaction (id `TXN-0000`) without
incrementing the counter, which therefore starts at 0 even when one opening
transaction exists. -/
theorem C8_counter_discipline :
    (∀ (m : AccountManager) (owner : String) (q : ℚ) (a : BankAccount)
        (m' : AccountManager),
        m.create_account owner q = (Except.ok a, m') →
        a.transaction_counter = 0 ∧
        a.transactions.length = (if 0 < q then 1 else 0)) ∧
    (∀ (a : BankAccount) (q : ℚ) (dsc : Option String) (t : Transaction)
        (a' : BankAccount),
        a.deposit q dsc = (Except.ok t, a') →
        a'.transaction_counter = a.transaction_counter + 1 ∧
        a'.transactions = a.transactions ++ [t]) ∧
    (∀ (a : BankAccount) (q : ℚ) (dsc : Option String) (e : BankErr)
        (a' : BankAccount),
        a.deposit q dsc = (Except.error e, a') → a' = a) ∧
    (∀ (a : BankAccount) (q : ℚ) (dsc : Option String) (t : Transaction)
        (a' : BankAccount),
        a.withdraw q dsc = (Except.ok t, a') →
        a'.transaction_counter = a.transaction_counter + 1 ∧
        a'.transactions = a.transactions ++ [t]) ∧
    (∀ (a : BankAccount) (q : ℚ) (dsc : Option String) (e : BankErr)
        (a' : BankAccount),
        a.withdraw q dsc = (Except.error e, a') → a' = a) ∧
    (∀ (m : AccountManager) (fId tId : String) (q : ℚ) (dsc : Option String)
        (k : String) (a : BankAccount),
        alookup m.accounts k = some a →
        ∃ a', alookup ((m.transfer fId tId q dsc).2).accounts k = some a' ∧
          a.transaction_counter ≤ a'.transaction_counter) := by
  refine ⟨?_, ?_, ?_, ?_, ?_, ?_⟩
  · intro m owner q a m' h
    by_cases hq : q < 0
    · unfold AccountManager.create_account at h
      rw [if_pos hq] at h
      injection h with h1 h2
      exact Except.noConfusion h1
    · rw [create_account_ok_eq m owner q hq] at h
      injection h with h1 h2
      injection h1 with h1
      subst h1
      refine ⟨rfl, ?_⟩
      by_cases h2 : 0 < q <;> simp [h2]
  · intro a q dsc t a' h
    by_cases h1 : a.is_active = false
    · rw [deposit_err_inactive a q dsc h1] at h
      injection h with h1 h2
      exact Except.noConfusion h1
    · have hact := is_active_true_of_not_false a h1
      by_cases h2 : q ≤ 0
      · rw [deposit_err_nonpos a q dsc hact h2] at h
        injection h with h1 h2
        exact Except.noConfusion h1
      · rw [deposit_ok_eq a q dsc hact (not_le.mp h2)] at h
        injection h with h1 h2
        injection h1 with h1
        subst h1
        subst h2
        exact ⟨rfl, rfl⟩
  · intro a q dsc e a' h
    by_cases h1 : a.is_active = false
    · rw [deposit_err_inactive a q dsc h1] at h
      injection h with h1 h2
      exact h2.symm
    · have hact := is_active_true_of_not_false a h1
      by_cases h2 : q ≤ 0
      · rw [deposit_err_nonpos a q dsc hact h2] at h
        injection h with h1 h2
        exact h2.symm
      · rw [deposit_ok_eq a q dsc hact (not_le.mp h2)] at h
        injection h with h1 h2
        exact Except.noConfusion h1
  · intro a q dsc t a' h
    by_cases h1 : a.is_active = false
    · rw [withdraw_err_inactive a q dsc h1] at h
      injection h with h1 h2
      exact Except.noConfusion h1
    · have hact := is_active_true_of_not_false a h1
      by_cases h2 : q ≤ 0
      · rw [withdraw_err_nonpos a q dsc hact h2] at h
        injection h with h1 h2
        exact Except.noConfusion h1
      · by_cases h3 : a.balance < q
        · rw [withdraw_err_insufficient a q dsc hact (not_le.mp h2) h3] at h
          injection h with h1 h2
          exact Except.noConfusion h1
        · rw [withdraw_ok_eq a q dsc hact (not_le.mp h2) (not_lt.mp h3)] at h
          injection h with h1 h2
          injection h1 with h1
          subst h1
          subst h2
          exact ⟨rfl, rfl⟩
  · intro a q dsc e a' h
    by_cases h1 : a.is_active = false
    · rw [withdraw_err_inactive a q dsc h1] at h
      injection h with h1 h2
      exact h2.symm
    · have hact := is_active_true_of_not_false a h1
      by_cases h2 : q ≤ 0
      · rw [withdraw_err_nonpos a q dsc hact h2] at h
        injection h with h1 h2
        exact h2.symm
      · by_cases h3 : a.balance < q
        · rw [withdraw_err_insufficient a q dsc hact (not_le.mp h2) h3] at h
          injection h with h1 h2
          exact h2.symm
        · rw [withdraw_ok_eq a q dsc hact (not_le.mp h2) (not_lt.mp h3)] at h
          injection h with h1 h2
          exact Except.noConfusion h1
  · intro m fId tId q dsc k a hk
    cases hf : m.get_account fId with
    | error e =>
      rw [transfer_eq_from_missing m fId tId q dsc e hf]
      exact ⟨a, hk, le_refl _⟩
    | ok A =>
      cases ht : m.get_account tId with
      | error e =>
        rw [transfer_eq_to_missing m fId tId q dsc A e hf ht]
        exact ⟨a, hk, le_refl _⟩
      | ok B =>
        rcases hw : A.withdraw q (wDesc tId dsc) with ⟨r, A'⟩
        have hcA : A.transaction_counter ≤ A'.transaction_counter := by
          have hh := withdraw_counter_le A q (wDesc tId dsc)
          rw [hw] at hh
          exact hh
        cases r with
        | error e =>
          rw [transfer_eq_withdraw_err m fId tId q dsc A B A' e hf ht hw]
          exact ⟨a, hk, le_refl _⟩
        | ok w =>
          have hfA : alookup m.accounts fId = some A :=
            (get_account_ok_iff m fId A).mp hf
          obtain ⟨a₁, hk1, hle1⟩ := aset_counter_step m.accounts fId A A' k a hfA hcA hk
          cases hd : AccountManager.get_account
              ⟨aset m.accounts fId A', m.account_counter⟩ tId with
          | error e =>
            rw [transfer_eq_relookup_err m fId tId q dsc A B A' w e hf ht hw hd]
            exact ⟨a₁, hk1, hle1⟩
          | ok C =>
            rcases hde : C.deposit q (dDesc fId dsc) with ⟨r2, C'⟩
            have hcC : C.transaction_counter ≤ C'.transaction_counter := by
              have hh := deposit_counter_le C q (dDesc fId dsc)
              rw [hde] at hh
              exact hh
            cases r2 with
            | error e =>
              rw [transfer_eq_deposit_err m fId tId q dsc A B A' C C' w e
                hf ht hw hd hde]
              exact ⟨a₁, hk1, hle1⟩
            | ok d =>
              rw [transfer_eq_ok m fId tId q dsc A B A' C C' w d hf ht hw hd hde]
              have hCt : alookup (aset m.accounts fId A') tId = some C :=
                (get_account_ok_iff ⟨aset m.accounts fId A', m.account_counter⟩
                  tId C).mp hd
              obtain ⟨a₂, hk2, hle2⟩ :=
                aset_counter_step (aset m.accounts fId A') tId C C' k a₁ hCt hcC hk1
              exact ⟨a₂, hk2, le_trans hle1 hle2⟩

/-- Account created as `ACC-000001` with an opening deposit of 50. -/
def danaAcc : BankAccount :=
  { account_id := "ACC-000001"
    owner := "Dana"
    balance := 50
    is_active := true
    transactions :=
      [{ id := "ACC-000001-TXN-0000"
         type := TxnType.deposit
         amount := 50
         balance_after := 50
         description := some "Initial deposit" }]
    transaction_counter := 0 }

theorem C8_witness :
    danaAcc.transaction_counter = 0 ∧
    danaAcc.transactions.length = (if (0 : ℚ) < 50 then 1 else 0) :=
  C8_counter_discipline.1 AccountManager.initial "Dana" 50 danaAcc
    ⟨[("ACC-000001", danaAcc)], 1⟩ rfl

end Day06

/-- JSON values, the target of `json.dump`/`json.load` in
`persistent_bank.py`.  Python dicts become insertion-ordered key/value
lists (`json.load` preserves object member order). -/
inductive Json : Type
  | null
  | str (s : String)
  | num (q : ℚ)
  | bool (b : Bool)
  | arr (xs : List Json)
  | obj (kvs : List (String × Json))

/-- Dictionary access `data[key]` / `data.get(key)`: `none` when the key is
absent or the value is not an object. -/
def jget (j : Json) (key : String) : Option Json :=
  match j with
  | Json.obj kvs => alookup kvs key
  | _ => none

/-- Dictionary access with a default, `data.get(key, dflt)`. -/
def jgetD (j : Json) (key : String) (dflt : Json) : Json :=
  (jget j key).getD dflt

/-- Expect a JSON string (a non-string where the code needs a string is a
decode failure). -/
def Json.asStr : Json → Option String
  | Json.str s => some s
  | _ => none

/-- Expect a JSON number. -/
def Json.asNum : Json → Option ℚ
  | Json.num q => some q
  | _ => none

/-- Expect a JSON array. -/
def Json.asArr : Json → Option (List Json)
  | Json.arr xs => some xs
  | _ => none

/-- Expect a JSON object. -/
def Json.asObj : Json → Option (List (String × Json))
  | Json.obj kvs => some kvs
  | _ => none

/-- Expect a JSON number holding a non-negative integer (the serialized
form of the Python `int` counters). -/
def Json.asNat : Json → Option Nat
  | Json.num q => if 0 ≤ q.num ∧ q.den = 1 then some q.num.toNat else none
  | _ => none

/-- Decode an optional string field: absent or `null` is `None`, a string
is itself (`data.get("description")`). -/
def decodeOptStr : Option Json → Option (Option String)
  | none => some none
  | some Json.null => some none
  | some (Json.str s) => some (some s)
  | some _ => none

/-- Decode `data.get(key, dflt)` for an integer field. -/
def jgetNatD (j : Json) (key : String) (dflt : Nat) : Option Nat :=
  match jget j key with
  | none => some dflt
  | some v => v.asNat

/-- Left-to-right effectful map over a list, as a Python comprehension whose
body may raise: the first failure aborts the whole comprehension. -/
def mapOpt {α β : Type} (f : α → Option β) : List α → Option (List β)
  | [] => some []
  | x :: xs =>
    match f x with
    | none => none
    | some y =>
      match mapOpt f xs with
      | none => none
      | some ys => some (y :: ys)

theorem asNat_natCast (n : Nat) : Json.asNat (Json.num (n : ℚ)) = some n := by
  show (if 0 ≤ ((n : ℚ)).num ∧ ((n : ℚ)).den = 1 then some ((n : ℚ)).num.toNat
    else none) = some n
  rw [if_pos (by simp)]
  simp

namespace Day07

/-- Enum `TransactionType` of `persistent_bank.py` (`DEPOSIT`,
`WITHDRAWAL`). -/
inductive TxnType : Type
  | deposit
  | withdrawal
deriving DecidableEq, Repr

/-- Serialized enum value, `self.type.value`. -/
def TxnType.value : TxnType → String
  | TxnType.deposit => "DEPOSIT"
  | TxnType.withdrawal => "WITHDRAWAL"

/-- Enum construction `TransactionType(s)`: fails (`ValueError`) on any
other string. -/
def TxnType.ofString (s : String) : Option TxnType :=
  if s = "DEPOSIT" then some TxnType.deposit
  else if s = "WITHDRAWAL" then some TxnType.withdrawal
  else none

theorem ofString_value (t : TxnType) : TxnType.ofString t.value = some t := by
  cases t <;> rfl

/-- Error taxonomy of `persistent_bank.py`: its `InsufficientFundsError`
stores only `balance` and `amount`, its `NegativeAmountError` only
`amount`. -/
inductive BankErr : Type
  | insufficientFunds (balance amount : ℚ)
  | negativeAmount (amount : ℚ)
  | accountNotFound (account_id : String)
deriving DecidableEq, Repr

/-- Dataclass `Transaction` of `persistent_bank.py`: its `timestamp` is an
ISO-8601 string, assigned from the clock at creation. -/
structure Transaction : Type where
  id : String
  type : TxnType
  amount : ℚ
  balance_after : ℚ
  timestamp : String
  description : Option String
deriving DecidableEq, Repr

/-- Dataclass `BankAccount` of `persistent_bank.py` (no `is_active` flag in
this variant); `created_at` is an ISO-8601 string. -/
structure BankAccount : Type where
  account_id : String
  owner : String
  balance : ℚ
  transactions : List Transaction
  created_at : String
  transaction_counter : Nat
deriving DecidableEq, Repr

/-- Dataclass `AccountManager` of `persistent_bank.py`; the `data_file`
path field only names the snapshot location and is not part of the
observable ledger state. -/
structure AccountManager : Type where
  accounts : List (String × BankAccount)
  account_counter : Nat
deriving DecidableEq, Repr

/-- `BankAccount.deposit` of the Day07 variant: rejects `amount <= 0`, then
mutates; `now` is the creation timestamp `datetime.now().isoformat()`. -/
def BankAccount.deposit (a : BankAccount) (amount : ℚ) (dsc : Option String)
    (now : String) : Except BankErr Transaction × BankAccount :=
  if amount ≤ 0 then
    (Except.error (BankErr.negativeAmount amount), a)
  else
    let newBalance := a.balance + amount
    let counter := a.transaction_counter + 1
    let t : Transaction :=
      { id := mkTxnId a.account_id counter
        type := TxnType.deposit
        amount := amount
        balance_after := newBalance
        timestamp := now
        description := dsc }
    (Except.ok t,
      { a with
          balance := newBalance
          transactions := a.transactions ++ [t]
          transaction_counter := counter })

/-- `BankAccount.withdraw` of the Day07 variant: rejects `amount <= 0`,
then `amount > balance`, then mutates. -/
def BankAccount.withdraw (a : BankAccount) (amount : ℚ) (dsc : Option String)
    (now : String) : Except BankErr Transaction × BankAccount :=
  if amount ≤ 0 then
    (Except.error (BankErr.negativeAmount amount), a)
  else if a.balance < amount then
    (Except.error (BankErr.insufficientFunds a.balance amount), a)
  else
    let newBalance := a.balance - amount
    let counter := a.transaction_counter + 1
    let t : Transaction :=
      { id := mkTxnId a.account_id counter
        type := TxnType.withdrawal
        amount := amount
        balance_after := newBalance
        timestamp := now
        description := dsc }
    (Except.ok t,
      { a with
          balance := newBalance
          transactions := a.transactions ++ [t]
          transaction_counter := counter })

/-- `Transaction.to_dict`: JSON-serializable dict with the enum as its
string value and `None` as `null`. -/
def Transaction.to_dict (t : Transaction) : Json :=
  Json.obj
    [("id", Json.str t.id),
     ("type", Json.str t.type.value),
     ("amount", Json.num t.amount),
     ("balance_after", Json.num t.balance_after),
     ("timestamp", Json.str t.timestamp),
     ("description",
       match t.description with
       | none => Json.null
       | some s => Json.str s)]

/-- `Transaction.from_dict`: field access `data[...]` fails when a key is
absent or its value has the wrong shape; `description` uses `data.get`. -/
def Transaction.from_dict (j : Json) : Option Transaction :=
  match (jget j "id").bind Json.asStr with
  | none => none
  | some i =>
    match ((jget j "type").bind Json.asStr).bind TxnType.ofString with
    | none => none
    | some ty =>
      match (jget j "amount").bind Json.asNum with
      | none => none
      | some amount =>
        match (jget j "balance_after").bind Json.asNum with
        | none => none
        | some balance_after =>
          match (jget j "timestamp").bind Json.asStr with
          | none => none
          | some timestamp =>
            match decodeOptStr (jget j "description") with
            | none => none
            | some description =>
              some
                { id := i
                  type := ty
                  amount := amount
                  balance_after := balance_after
                  timestamp := timestamp
                  description := description }

/-- `BankAccount.to_dict`: serializes the full transaction log and the
internal `_transaction_counter`. -/
def BankAccount.to_dict (a : BankAccount) : Json :=
  Json.obj
    [("account_id", Json.str a.account_id),
     ("owner", Json.str a.owner),
     ("balance", Json.num a.balance),
     ("transactions", Json.arr (a.transactions.map Transaction.to_dict)),
     ("created_at", Json.str a.created_at),
     ("_transaction_counter", Json.num (a.transaction_counter : ℚ))]

/-- `BankAccount.from_dict`: rebuilds the account and then restores
`_transaction_counter`, defaulting to the log length when absent. -/
def BankAccount.from_dict (j : Json) : Option BankAccount :=
  match (jget j "account_id").bind Json.asStr with
  | none => none
  | some account_id =>
    match (jget j "owner").bind Json.asStr with
    | none => none
    | some owner =>
      match (jget j "balance").bind Json.asNum with
      | none => none
      | some balance =>
        match ((jget j "transactions").bind Json.asArr).bind
            (mapOpt Transaction.from_dict) with
        | none => none
        | some transactions =>
          match (jget j "created_at").bind Json.asStr with
          | none => none
          | some created_at =>
            match jgetNatD j "_transaction_counter" transactions.length with
            | none => none
            | some transaction_counter =>
              some
                { account_id := account_id
                  owner := owner
                  balance := balance
                  transactions := transactions
                  created_at := created_at
                  transaction_counter := transaction_counter }

/-- `AccountManager.save_to_file`: the JSON document written to disk — all
accounts (in dict order) and the ledger's own `_account_counter`. -/
def AccountManager.save_to_file (m : AccountManager) : Json :=
  Json.obj
    [("accounts", Json.obj (m.accounts.map (fun p => (p.1, p.2.to_dict)))),
     ("_account_counter", Json.num (m.account_counter : ℚ))]

/-- `AccountManager.load_from_file`: rebuilds the accounts dict from
`data.get("accounts", {})` and the counter from
`data.get("_account_counter", len(accounts))`; a malformed document
(`KeyError` / wrong shape) is a decode failure. -/
def AccountManager.load_from_file (j : Json) : Option AccountManager :=
  match (jgetD j "accounts" (Json.obj [])).asObj with
  | none => none
  | some kvs =>
    match mapOpt (fun p => (BankAccount.from_dict p.2).map (fun a => (p.1, a))) kvs with
    | none => none
    | some accounts =>
      match jgetNatD j "_account_counter" accounts.length with
      | none => none
      | some account_counter => some ⟨accounts, account_counter⟩

/-- `AccountManager.__post_init__` on a default-constructed manager: fields
start as the dataclass defaults (`accounts = {}`, `_account_counter = 0`);
when the snapshot file exists (`some j`) it is loaded, otherwise the
defaults stand. -/
def AccountManager.post_init (file : Option Json) : Option AccountManager :=
  match file with
  | none => some ⟨[], 0⟩
  | some j => AccountManager.load_from_file j

theorem transaction_round_trip (t : Transaction) :
    Transaction.from_dict t.to_dict = some t := by
  obtain ⟨i, ty, amount, balance_after, timestamp, description⟩ := t
  cases ty <;> cases description <;> rfl

theorem mapOpt_transactions (ts : List Transaction) :
    mapOpt Transaction.from_dict (ts.map Transaction.to_dict) = some ts := by
  induction ts with
  | nil => rfl
  | cons t rest ih =>
    simp only [List.map_cons, mapOpt, transaction_round_trip, ih]

theorem bankAccount_round_trip (a : BankAccount) :
    BankAccount.from_dict a.to_dict = some a := by
  obtain ⟨account_id, owner, balance, transactions, created_at, counter⟩ := a
  simp [BankAccount.to_dict, BankAccount.from_dict, jget, jgetNatD,
    alookup, Json.asStr, Json.asNum, Json.asArr, Option.bind,
    mapOpt_transactions, asNat_natCast]

theorem mapOpt_accounts (l : List (String × BankAccount)) :
    mapOpt (fun p => (BankAccount.from_dict p.2).map (fun a => (p.1, a)))
      (l.map (fun p => (p.1, p.2.to_dict))) = some l := by
  induction l with
  | nil => rfl
  | cons p rest ih =>
    simp [mapOpt, bankAccount_round_trip, ih]

/-- C3: loading the snapshot produced by saving any ledger state
reconstructs that state exactly — the same account ids in the same order,
and for each account the same owner, balance, transaction log (ids, types,
amounts, balance_after values, timestamps, descriptions, in order), the same
per-account transaction counter, and the same ledger account counter —
because the reconstructed manager is equal to the original. -/
theorem C3_save_load_round_trip (m : AccountManager) :
    AccountManager.load_from_file m.save_to_file = some m := by
  obtain ⟨accounts, account_counter⟩ := m
  simp [AccountManager.save_to_file, AccountManager.load_from_file,
    jgetD, jget, alookup, Json.asObj, mapOpt_accounts, jgetNatD,
    asNat_natCast]

/-- C9 counterexample: constructing the ledger with the snapshot location
absent yields account counter 0, not 1: the loaded state is not the
empty map with counter 1 that the claim describes. -/
theorem C9_counterexample :
    AccountManager.post_init none ≠ some ⟨[], 1⟩ := by
  decide

/-- C9 (amended): when the configured snapshot location is absent,
construction succeeds with an empty-but-valid state — an empty account map
and an account counter equal to 0, so that the first allocated account id is
`ACC-000001` — rather than failing. -/
theorem C9_empty_state :
    AccountManager.post_init none = some ⟨[], 0⟩ := rfl

end Day07

/-- Inactive Day06 account used to refute the universally quantified form
of the non-positive-amount claim. -/
def inactiveEveAcc : Day06.BankAccount :=
  { account_id := "ACC-000003"
    owner := "Eve"
    balance := 0
    is_active := false
    transactions := []
    transaction_counter := 0 }

/-- C7 counterexample: on an inactive Day06 account a non-positive deposit
fails with `AccountInactiveError`, not `NegativeAmountError` — the active
check runs first — so "for every account … fails with InvalidAmount" is
false as stated. -/
theorem C7_counterexample :
    (inactiveEveAcc.deposit (-5) none).1 =
      Except.error (Day06.BankErr.accountInactive "ACC-000003") ∧
    Day06.BankErr.accountInactive "ACC-000003" ≠
      Day06.BankErr.negativeAmount (-5) "deposit" :=
  ⟨rfl, by decide⟩

/-- C7 (amended): for every *active* account in the Day06 variant — and
every account in the Day07 variant, which has no active flag — `deposit`
and `withdraw` with `amount ≤ 0` fail with `NegativeAmountError` and leave
the account state (balance, transaction log, transaction counter)
unchanged. -/
theorem C7_nonpositive_amount_rejected :
    (∀ (a : Day06.BankAccount) (amount : ℚ) (dsc : Option String),
        a.is_active = true → amount ≤ 0 →
        a.deposit amount dsc =
          (Except.error (Day06.BankErr.negativeAmount amount "deposit"), a) ∧
        a.withdraw amount dsc =
          (Except.error (Day06.BankErr.negativeAmount amount "withdrawal"), a)) ∧
    (∀ (a : Day07.BankAccount) (amount : ℚ) (dsc : Option String) (now : String),
        amount ≤ 0 →
        a.deposit amount dsc now =
          (Except.error (Day07.BankErr.negativeAmount amount), a) ∧
        a.withdraw amount dsc now =
          (Except.error (Day07.BankErr.negativeAmount amount), a)) := by
  constructor
  · intro a amount dsc hact hle
    exact ⟨Day06.deposit_err_nonpos a amount dsc hact hle,
           Day06.withdraw_err_nonpos a amount dsc hact hle⟩
  · intro a amount dsc now hle
    constructor
    · unfold Day07.BankAccount.deposit
      rw [if_pos hle]
    · unfold Day07.BankAccount.withdraw
      rw [if_pos hle]

/-- Day07 account used to instantiate the error theorems. -/
def frankAcc : Day07.BankAccount :=
  { account_id := "ACC-000001"
    owner := "Frank"
    balance := 100
    transactions := []
    created_at := "2026-01-01T00:00:00"
    transaction_counter := 2 }

theorem C7_witness :
    (Day06.charlieAcc.deposit (-50) none =
        (Except.error (Day06.BankErr.negativeAmount (-50) "deposit"),
         Day06.charlieAcc) ∧
      Day06.charlieAcc.withdraw (-50) none =
        (Except.error (Day06.BankErr.negativeAmount (-50) "withdrawal"),
         Day06.charlieAcc)) ∧
    (frankAcc.deposit 0 none "2026-01-02T00:00:00" =
        (Except.error (Day07.BankErr.negativeAmount 0), frankAcc) ∧
      frankAcc.withdraw 0 none "2026-01-02T00:00:00" =
        (Except.error (Day07.BankErr.negativeAmount 0), frankAcc)) :=
  ⟨C7_nonpositive_amount_rejected.1 Day06.charlieAcc (-50) none rfl (by decide),
   C7_nonpositive_amount_rejected.2 frankAcc 0 none "2026-01-02T00:00:00"
     (by decide)⟩
